import Mathlib

/-!
Shallow embedding of `src/examples/geolifeclef/cnn_on_temperature_patches.py`.

Arrays/tensors are modelled as `Img`: a channel count, spatial height and
width, a dtype tag, and a total pixel function over rational values
(rationals stand in for the floating-point values; machine-float rounding
is not modelled, the claims under verification are about shapes, routing,
determinism and exact arithmetic identities).

External library semantics used by the source and embedded here, from their
documented behaviour:
- numpy broadcasting of a `(C,H,W)` array against a `(3,1,1)` array
  succeeds iff `C = 3` or `C = 1` (a 1-sized axis stretches), else raises;
- `torchvision.transforms.functional.resize(img, s)` with an integer `s`
  matches the SMALLER edge to `s` and scales the other edge to
  `int(s * long / short)`, interpolating bilinearly (align_corners=False);
- `transforms.RandomRotation(degrees=45, fill=255)` samples an angle in
  `[-45, 45]` and rotates about the image center with nearest-neighbour
  sampling, filling out-of-bounds pixels with 255;
- `transforms.RandomCrop(224)` samples a top-left corner uniformly;
- `transforms.RandomHorizontalFlip` / `RandomVerticalFlip` flip with
  probability 1/2;
- `transforms.CenterCrop(224)` crops the center deterministically, padding
  with 0 when the image is smaller than the crop;
- `transforms.Normalize(mean, std)` maps each channel value `v` to
  `(v - mean[c]) / std[c]`.
Randomness consumed by the random transforms is made explicit as a `Rand`
record of the sampled draws; deterministic transforms ignore it.
-/

/-- Numeric dtype tag of an array/tensor. -/
inductive DType where
  | float32
  | float64
  | int32
  | int64
  | uint8
deriving DecidableEq

/-- A dense 3-d array `(channels, height, width)` with rational entries.
`px` is total; reads outside `[0,c) × [0,h) × [0,w)` are irrelevant. -/
structure Img where
  c : ℕ
  h : ℕ
  w : ℕ
  dtype : DType
  px : ℕ → ℕ → ℕ → ℚ

/-- Floor of a rational as an integer. -/
def qfloor (q : ℚ) : ℤ := ⌊q⌋

/-- Round a rational to the nearest integer (halves go up). -/
def qround (q : ℚ) : ℤ := qfloor (q + 1/2)

/-- Clamp a rational into `[lo, hi]`. -/
def qclamp (lo hi a : ℚ) : ℚ := max lo (min hi a)

/-- The fixed per-channel mean `np.asarray([-12.0, 1.0, 1.0])` of the
BIOTEMP transform. -/
def bioMu : List ℚ := [-12, 1, 1]

/-- The fixed per-channel scale `np.asarray([40.0, 22.0, 51.0])` of the
BIOTEMP transform. -/
def bioSigma : List ℚ := [40, 22, 51]

/-- numpy broadcast compatibility of the channel axis `C` against the
3-sized axis of `mu`/`sigma` (shape `(3,1,1)`): `C = 3` or `C = 1`. -/
def broadcastOK (c : ℕ) : Bool := c == 3 || c == 1

/-- The value stage of `ReplaceChannelsByBIOTEMPTransform.__call__`:
`data = (data - mu) / sigma` under numpy broadcasting, then
`torch.as_tensor(data, dtype=torch.float32)`.  When the input has one
channel it is stretched across the 3 entries of `mu`/`sigma`; otherwise
the channel axis must be 3.  Spatial dimensions are unchanged. -/
def biotempNormalize (x : Img) : Img where
  c := if x.c = 1 then 3 else x.c
  h := x.h
  w := x.w
  dtype := DType.float32
  px := fun k i j =>
    (x.px (if x.c = 1 then 0 else k) i j - bioMu.getD k 0) / bioSigma.getD k 1

/-- Output spatial shape of `torchvision resize` with integer size `s`:
the smaller edge becomes `s`, the larger becomes `int(s * long / short)`.
Returns `(new_h, new_w)`. -/
def resizeShape (s h w : ℕ) : ℕ × ℕ :=
  if w ≤ h then (s * h / w, s) else (s, s * w / h)

/-- Source coordinate for bilinear interpolation with
`align_corners=False`: `max 0 ((i + 1/2) * old / new - 1/2)`. -/
def srcCoord (old new i : ℕ) : ℚ :=
  max 0 ((i + 1/2) * old / new - 1/2)

/-- Bilinearly interpolated read of channel `k` of `x` at fractional
source position `(sy, sx)` (PyTorch `upsample_bilinear2d`, no antialias). -/
def bilinearAt (x : Img) (k : ℕ) (sy sx : ℚ) : ℚ :=
  let y0 : ℕ := (qfloor sy).toNat
  let x0 : ℕ := (qfloor sx).toNat
  let y1 : ℕ := min (y0 + 1) (x.h - 1)
  let x1 : ℕ := min (x0 + 1) (x.w - 1)
  let ly : ℚ := sy - y0
  let lx : ℚ := sx - x0
  (1 - ly) * ((1 - lx) * x.px k y0 x0 + lx * x.px k y0 x1) +
    ly * ((1 - lx) * x.px k y1 x0 + lx * x.px k y1 x1)

/-- Model of `torchvision.transforms.functional.resize(x, s)` with an
integer `s`: smaller-edge-matching output shape, bilinear interpolation. -/
def resizeSmallerEdge (s : ℕ) (x : Img) : Img where
  c := x.c
  h := (resizeShape s x.h x.w).1
  w := (resizeShape s x.h x.w).2
  dtype := x.dtype
  px := fun k i j =>
    bilinearAt x k (srcCoord x.h (resizeShape s x.h x.w).1 i)
      (srcCoord x.w (resizeShape s x.h x.w).2 j)

/-- The body of `ReplaceChannelsByBIOTEMPTransform.__call__` on a
broadcast-compatible input: normalize by `mu`/`sigma`, convert to a
float32 tensor, resize with target size 256. -/
def biotempApply (x : Img) : Img :=
  resizeSmallerEdge 256 (biotempNormalize x)

/-- The call `ReplaceChannelsByBIOTEMPTransform.__call__` including the
numpy broadcast check: `none` models the `ValueError` numpy raises when
the channel axis broadcasts against neither 3 nor 1. -/
def biotempCall (x : Img) : Option Img :=
  if broadcastOK x.c then some (biotempApply x) else none

/-- The call together with the state of its input array afterwards.
Every operation the source performs (`numpy` subtraction and division,
`torch.as_tensor`, `resize`) allocates a fresh array or reads without
writing, and `data = ...` rebinds a local name, so the caller's array is
unchanged: the second component is the input as the call leaves it. -/
def biotempCallTrace (x : Img) : Option Img × Img :=
  (biotempCall x, x)

/-- Rational approximation of pi, used to convert sampled rotation degrees
to radians (the source's float trigonometry is itself approximate). -/
def piQ : ℚ := 314159265358979323846 / 100000000000000000000

/-- Truncated Taylor cosine over the rationals; exact at 0. -/
def cosQ (x : ℚ) : ℚ :=
  let x2 := x * x
  let x4 := x2 * x2
  let x6 := x4 * x2
  let x8 := x4 * x4
  let x10 := x8 * x2
  1 - x2 / 2 + x4 / 24 - x6 / 720 + x8 / 40320 - x10 / 3628800

/-- Truncated Taylor sine over the rationals; exact at 0. -/
def sinQ (x : ℚ) : ℚ :=
  let x2 := x * x
  let x3 := x2 * x
  let x5 := x3 * x2
  let x7 := x5 * x2
  let x9 := x7 * x2
  x - x3 / 6 + x5 / 120 - x7 / 5040 + x9 / 362880

/-- Rotation by `theta` degrees about the image center, nearest-neighbour
sampling, same output size, out-of-bounds pixels set to `fill` (the
torchvision `F.rotate` semantics used by `RandomRotation` with its default
nearest interpolation and `expand=False`).  At `theta = 0` this is exactly
the identity on in-bounds pixels. -/
def rotateNearest (theta fill : ℚ) (x : Img) : Img where
  c := x.c
  h := x.h
  w := x.w
  dtype := x.dtype
  px := fun k i j =>
    let rad := theta * piQ / 180
    let co := cosQ rad
    let si := sinQ rad
    let cy : ℚ := ((x.h : ℚ) - 1) / 2
    let cx : ℚ := ((x.w : ℚ) - 1) / 2
    let sx := co * ((j : ℚ) - cx) + si * ((i : ℚ) - cy) + cx
    let sy := -si * ((j : ℚ) - cx) + co * ((i : ℚ) - cy) + cy
    let xi := qround sx
    let yi := qround sy
    if 0 ≤ xi ∧ xi < (x.w : ℤ) ∧ 0 ≤ yi ∧ yi < (x.h : ℤ) then
      x.px k yi.toNat xi.toNat
    else fill

/-- The random draws consumed by one pass of the training pipeline: the
rotation angle, the crop corner, and the two flip coins.  Deterministic
transforms ignore this record. -/
structure Draws where
  angle : ℚ
  cropI : ℕ
  cropJ : ℕ
  hflip : Bool
  vflip : Bool

/-- A pipeline stage: a function of the random draws and the image. -/
def Step : Type := Draws → Img → Img

/-- Pipeline stage `ReplaceChannelsByBIOTEMPTransform()` (ignores the
random draws; inside a pipeline the dataset supplies 3-channel patches,
so the broadcast-compatible body applies). -/
def biotempStep : Step := fun _ x => biotempApply x

/-- Pipeline stage `transforms.RandomRotation(degrees=d, fill=f)`: the
sampled angle is uniform in `[-d, d]`, modelled by clamping the drawn
`angle` into that interval. -/
def rotationStep (d f : ℚ) : Step := fun r x =>
  rotateNearest (qclamp (-d) d r.angle) f x

/-- Pipeline stage `transforms.RandomCrop(size=s)`: top-left corner drawn
uniformly from `[0, h-s] × [0, w-s]`, modelled by reducing the drawn
corner modulo the number of valid positions. -/
def randomCropStep (s : ℕ) : Step := fun r x =>
  { c := x.c, h := s, w := s, dtype := x.dtype,
    px := fun k i j =>
      x.px k (r.cropI % (x.h - s + 1) + i) (r.cropJ % (x.w - s + 1) + j) }

/-- Horizontal mirror of an image. -/
def hflipImg (x : Img) : Img :=
  { x with px := fun k i j => x.px k i (x.w - 1 - j) }

/-- Vertical mirror of an image. -/
def vflipImg (x : Img) : Img :=
  { x with px := fun k i j => x.px k (x.h - 1 - i) j }

/-- Pipeline stage `transforms.RandomHorizontalFlip()`: flip iff the drawn
coin came up (probability 1/2 in the source). -/
def hflipStep : Step := fun r x => if r.hflip then hflipImg x else x

/-- Pipeline stage `transforms.RandomVerticalFlip()`. -/
def vflipStep : Step := fun r x => if r.vflip then vflipImg x else x

/-- Python `round(n / 2.0)` for an integer `n`: exact halves round to the
even neighbour, as in `int(round((image_height - crop_height) / 2.0))`. -/
def halfRoundEven (n : ℤ) : ℤ :=
  let q := Int.fdiv n 2
  if n % 2 = 0 then q else if q % 2 = 0 then q else q + 1

/-- Pipeline stage `transforms.CenterCrop(size=s)`: deterministic centered
crop; when the image is smaller than `s` torchvision pads with 0 first,
modelled by reading 0 outside the input bounds. -/
def centerCropStep (s : ℕ) : Step := fun _ x =>
  { c := x.c, h := s, w := s, dtype := x.dtype,
    px := fun k i j =>
      let y := halfRoundEven ((x.h : ℤ) - (s : ℤ)) + (i : ℤ)
      let z := halfRoundEven ((x.w : ℤ) - (s : ℤ)) + (j : ℤ)
      if 0 ≤ y ∧ y < (x.h : ℤ) ∧ 0 ≤ z ∧ z < (x.w : ℤ) then
        x.px k y.toNat z.toNat
      else 0 }

/-- The per-channel means of the final `transforms.Normalize` of both
pipelines, `[0.485, 0.456, 0.406]`. -/
def imagenetMean : List ℚ := [485/1000, 456/1000, 406/1000]

/-- The per-channel standard deviations of the final
`transforms.Normalize` of both pipelines, `[0.229, 0.224, 0.225]`. -/
def imagenetStd : List ℚ := [229/1000, 224/1000, 225/1000]

/-- Pipeline stage `transforms.Normalize(mean, std)`: channel value `v`
becomes `(v - mean[c]) / std[c]`. -/
def normalizeStep (mean std : List ℚ) : Step := fun _ x =>
  { x with px := fun k i j => (x.px k i j - mean.getD k 0) / std.getD k 1 }

/-- The stages of `GeoLifeCLEF2022DataModule.train_transform`, in the
order the source composes them. -/
def trainSteps : List Step :=
  [biotempStep, rotationStep 45 255, randomCropStep 224, hflipStep,
    vflipStep, normalizeStep imagenetMean imagenetStd]

/-- The stages of `GeoLifeCLEF2022DataModule.test_transform`, in the
order the source composes them. -/
def testSteps : List Step :=
  [biotempStep, centerCropStep 224, normalizeStep imagenetMean imagenetStd]

/-- Application of a `transforms.Compose` pipeline: the stages run left to
right, each seeing the same explicit random draws. -/
def applySteps (steps : List Step) (r : Draws) (x : Img) : Img :=
  steps.foldl (fun acc s => s r acc) x

/-- The property `GeoLifeCLEF2022DataModule.train_transform`, applied. -/
def train_transform (r : Draws) (x : Img) : Img := applySteps trainSteps r x

/-- The property `GeoLifeCLEF2022DataModule.test_transform`, applied. -/
def test_transform (r : Draws) (x : Img) : Img := applySteps testSteps r x

/-- The two dataset classes `get_dataset` can route to. -/
inductive DatasetCls where
  | miniGeoLifeCLEF2022
  | geoLifeCLEF2022
deriving DecidableEq

/-- Construction-time description of the `PatchExtractor`: its root
directory, its `size` argument, and the appended rasters as
`(name, nan fill value)` pairs in append order. -/
structure PatchExtractorCfg where
  root : String
  size : ℕ
  rasters : List (String × ℚ)
deriving DecidableEq

/-- Constructor arguments of `GeoLifeCLEF2022DataModule.__init__`. -/
structure GeoLifeCLEF2022DataModule where
  dataset_path : String
  minigeolifeclef : Bool
  train_batch_size : ℕ
  inference_batch_size : ℕ
  num_workers : ℕ

/-- The arguments `get_dataset` hands to the chosen dataset constructor,
with the transform pipeline kept at an arbitrary type `T`. -/
structure DatasetArgs (T : Type) where
  cls : DatasetCls
  dataset_path : String
  split : String
  patch_data : List String
  use_rasters : Bool
  patch_extractor : PatchExtractorCfg
  transform : T

/-- Model of `GeoLifeCLEF2022DataModule.get_dataset`: picks the dataset
class from the `minigeolifeclef` flag, builds the `PatchExtractor` rooted
at `dataset_path / "rasters"` with `size=20` and the three appended
bioclimatic rasters, and passes everything to the dataset constructor. -/
def get_dataset {T : Type} (m : GeoLifeCLEF2022DataModule) (split : String)
    (transform : T) : DatasetArgs T :=
  { cls := if m.minigeolifeclef then DatasetCls.miniGeoLifeCLEF2022
      else DatasetCls.geoLifeCLEF2022,
    dataset_path := m.dataset_path,
    split := split,
    patch_data := [],
    use_rasters := true,
    patch_extractor :=
      { root := m.dataset_path ++ "/rasters", size := 20,
        rasters := [("bio_1", -12), ("bio_2", 1), ("bio_7", 1)] },
    transform := transform }

/-- A constant image: `c` channels, `h × w` pixels all equal to `v`,
stored with a float64 dtype. -/
def constImg (c h w : ℕ) (v : ℚ) : Img where
  c := c
  h := h
  w := w
  dtype := DType.float64
  px := fun _ _ _ => v

/-- A 3-channel 256-square image that is 1 at channel 0, pixel (0,0) and 0
elsewhere, so it is not mirror-symmetric. -/
def markedImg : Img where
  c := 3
  h := 256
  w := 256
  dtype := DType.float32
  px := fun k i j => if k = 0 ∧ i = 0 ∧ j = 0 then 1 else 0

/-- Random draws with angle 0, crop corner (0,0) and both flip coins
negative. -/
def drawsA : Draws := ⟨0, 0, 0, false, false⟩

/-- Random draws identical to `drawsA` except that the horizontal flip
coin came up. -/
def drawsB : Draws := ⟨0, 0, 0, true, false⟩

/-- The exact inverse of the value stage of the BIOTEMP transform:
multiply each channel by its scale and add back its mean. -/
def bioDenormalize (x : Img) : Img :=
  { x with px := fun k i j => x.px k i j * bioSigma.getD k 1 + bioMu.getD k 0 }

/-- Under the flip-off draws, the training pipeline leaves the marked
pixel in place: channel 0 of the output at (0,0) is
`((1 + 12)/40 - 0.485) / 0.229 = -160/229`. -/
theorem train_pixel_flip_off :
    (train_transform drawsA markedImg).px 0 0 0 = -160/229 := by
  norm_num [train_transform, applySteps, trainSteps, biotempStep, rotationStep,
    randomCropStep, hflipStep, vflipStep, normalizeStep, biotempApply,
    biotempNormalize, resizeSmallerEdge, resizeShape, srcCoord, bilinearAt,
    rotateNearest, qclamp, qround, qfloor, cosQ, sinQ, piQ, bioMu, bioSigma,
    imagenetMean, imagenetStd, hflipImg, markedImg, drawsA, min_def, max_def]

/-- Under the flip-on draws, the output at the same position reads the
mirrored (zero) pixel instead: `((0 + 12)/40 - 0.485) / 0.229 = -185/229`. -/
theorem train_pixel_flip_on :
    (train_transform drawsB markedImg).px 0 0 0 = -185/229 := by
  norm_num [train_transform, applySteps, trainSteps, biotempStep, rotationStep,
    randomCropStep, hflipStep, vflipStep, normalizeStep, biotempApply,
    biotempNormalize, resizeSmallerEdge, resizeShape, srcCoord, bilinearAt,
    rotateNearest, qclamp, qround, qfloor, cosQ, sinQ, piQ, bioMu, bioSigma,
    imagenetMean, imagenetStd, hflipImg, markedImg, drawsB, min_def, max_def]

/-- C1 counterexample: a 3-channel input of spatial size 256 x 512 does
not come out 256 x 256; `resize` with an integer size only matches the
smaller edge, the output is 256 x 512. -/
theorem biotempApply_nonsquare_not_256 :
    (constImg 3 256 512 0).c = 3 ∧
      ¬((biotempApply (constImg 3 256 512 0)).h = 256 ∧
        (biotempApply (constImg 3 256 512 0)).w = 256) := by
  decide

/-- C1 (amended): for every 3-channel input with nonzero spatial
dimensions, `ReplaceChannelsByBIOTEMPTransform.__call__` resizes the
SMALLER spatial edge to the configured 256 and scales the other edge to
preserve the aspect ratio; both output dimensions equal 256 when the
input is square, whatever its size. -/
theorem biotempApply_smaller_edge_256 (x : Img) (hc : x.c = 3)
    (hh : 0 < x.h) (hw : 0 < x.w) :
    (x.h ≤ x.w → (biotempApply x).h = 256 ∧
      (biotempApply x).w = 256 * x.w / x.h) ∧
    (x.w ≤ x.h → (biotempApply x).w = 256 ∧
      (biotempApply x).h = 256 * x.h / x.w) ∧
    (x.h = x.w → (biotempApply x).h = 256 ∧ (biotempApply x).w = 256) := by
  have hbh : (biotempApply x).h = (resizeShape 256 x.h x.w).1 := rfl
  have hbw : (biotempApply x).w = (resizeShape 256 x.h x.w).2 := rfl
  rw [hbh, hbw]
  unfold resizeShape
  by_cases hwh : x.w ≤ x.h
  · rw [if_pos hwh]
    refine ⟨fun hle => ?_, fun _ => ⟨rfl, rfl⟩, fun heq => ?_⟩
    · have heq : x.h = x.w := le_antisymm hle hwh
      constructor
      · show 256 * x.h / x.w = 256
        rw [heq, Nat.mul_div_cancel _ hw]
      · show (256 : ℕ) = 256 * x.w / x.h
        rw [heq, Nat.mul_div_cancel _ hw]
    · constructor
      · show 256 * x.h / x.w = 256
        rw [heq, Nat.mul_div_cancel _ hw]
      · rfl
  · rw [if_neg hwh]
    exact ⟨fun _ => ⟨rfl, rfl⟩, fun hle => absurd hle hwh,
      fun heq => absurd heq.ge hwh⟩

/-- Witness for the amended C1 at the concrete 3 x 100 x 200 input. -/
theorem biotempApply_smaller_edge_256_witness :
    (constImg 3 100 200 0).c = 3 ∧ 0 < (constImg 3 100 200 0).h ∧
      0 < (constImg 3 100 200 0).w ∧
      ((biotempApply (constImg 3 100 200 0)).h = 256 ∧
        (biotempApply (constImg 3 100 200 0)).w =
          256 * (constImg 3 100 200 0).w / (constImg 3 100 200 0).h) :=
  ⟨rfl, by decide, by decide,
    (biotempApply_smaller_edge_256 (constImg 3 100 200 0) rfl (by decide)
      (by decide)).1 (by decide)⟩

/-- C2 counterexample: a 2-channel input does not complete silently; the
numpy broadcast of `(2,H,W)` against `(3,1,1)` raises, modelled as
`none`. -/
theorem biotempCall_two_channels_raises :
    (constImg 2 4 4 0).c ≠ 3 ∧ biotempCall (constImg 2 4 4 0) = none :=
  ⟨by decide, rfl⟩

/-- C2 (amended): among inputs whose channel count is not 3, exactly the
1-channel ones complete without a reported error, silently broadcast to a
wrong 3-channel result; every other channel count raises a broadcasting
error. -/
theorem biotempCall_nonthree_channels (x : Img) (hc : x.c ≠ 3) :
    (x.c = 1 → biotempCall x = some (biotempApply x) ∧
      (biotempApply x).c = 3) ∧
    (x.c ≠ 1 → biotempCall x = none) := by
  constructor
  · intro h1
    constructor
    · simp [biotempCall, broadcastOK, h1]
    · simp [biotempApply, resizeSmallerEdge, biotempNormalize, h1]
  · intro h1
    simp [biotempCall, broadcastOK, hc, h1]

/-- Witness for the amended C2 at a concrete 1-channel input. -/
theorem biotempCall_nonthree_channels_witness :
    (constImg 1 4 4 0).c ≠ 3 ∧
      (biotempCall (constImg 1 4 4 0) =
          some (biotempApply (constImg 1 4 4 0)) ∧
        (biotempApply (constImg 1 4 4 0)).c = 3) :=
  ⟨by decide, (biotempCall_nonthree_channels (constImg 1 4 4 0)
    (by decide)).1 rfl⟩

/-- C3: on a 3-channel input, the value stage of
`ReplaceChannelsByBIOTEMPTransform.__call__` computes exactly
`(x[c] - mu[c]) / sigma[c]` with `mu = (-12, 1, 1)` and
`sigma = (40, 22, 51)`, yields a float32 tensor of unchanged shape, and
the full call is that stage followed by the resize and nothing else. -/
theorem biotempNormalize_values (x : Img) (hc : x.c = 3) (k i j : ℕ)
    (hk : k < 3) :
    (biotempNormalize x).px k i j =
      (x.px k i j - (if k = 0 then -12 else 1)) /
        (if k = 0 then 40 else if k = 1 then 22 else 51) ∧
    (biotempNormalize x).dtype = DType.float32 ∧
    (biotempNormalize x).c = 3 ∧
    (biotempNormalize x).h = x.h ∧ (biotempNormalize x).w = x.w ∧
    biotempApply x = resizeSmallerEdge 256 (biotempNormalize x) := by
  refine ⟨?_, rfl, by simp [biotempNormalize, hc], rfl, rfl, rfl⟩
  rcases k with _ | _ | _ | n
  · simp [biotempNormalize, bioMu, bioSigma, hc]
  · simp [biotempNormalize, bioMu, bioSigma, hc]
  · simp [biotempNormalize, bioMu, bioSigma, hc]
  · exact absurd hk (by omega)

/-- Witness for C3 at a concrete 3-channel input, channel 1. -/
theorem biotempNormalize_values_witness :
    (constImg 3 2 2 5).c = 3 ∧ (1 : ℕ) < 3 ∧
      (biotempNormalize (constImg 3 2 2 5)).px 1 0 0 =
        ((constImg 3 2 2 5).px 1 0 0 - (if (1 : ℕ) = 0 then -12 else 1)) /
          (if (1 : ℕ) = 0 then 40 else if (1 : ℕ) = 1 then 22 else 51) :=
  ⟨rfl, by decide,
    (biotempNormalize_values (constImg 3 2 2 5) rfl 1 0 0 (by decide)).1⟩

/-- C4: the evaluation pipeline is deterministic — its output does not
depend on the random draws at all — while the training pipeline is
stochastic: on the marked image, drawing the horizontal-flip coin
differently changes the output. -/
theorem test_deterministic_train_stochastic :
    (∀ ra rb : Draws, ∀ x : Img, test_transform ra x = test_transform rb x) ∧
    (∃ ra rb : Draws, ∃ x : Img,
      train_transform ra x ≠ train_transform rb x) := by
  constructor
  · intro _ _ _
    rfl
  · refine ⟨drawsA, drawsB, markedImg, fun hcontra => ?_⟩
    have hpx := congrArg (fun im => im.px 0 0 0) hcontra
    simp only at hpx
    rw [train_pixel_flip_off, train_pixel_flip_on] at hpx
    norm_num at hpx

/-- C5: `get_dataset` routes the `minigeolifeclef` flag to the mini
dataset class, its negation to the full class, and every other
constructor argument is identical across the two routings. -/
theorem get_dataset_flag_routing {T : Type} (path : String) (tb ib nw : ℕ)
    (split : String) (t : T) :
    (get_dataset ⟨path, true, tb, ib, nw⟩ split t).cls =
      DatasetCls.miniGeoLifeCLEF2022 ∧
    (get_dataset ⟨path, false, tb, ib, nw⟩ split t).cls =
      DatasetCls.geoLifeCLEF2022 ∧
    (get_dataset ⟨path, true, tb, ib, nw⟩ split t).dataset_path =
      (get_dataset ⟨path, false, tb, ib, nw⟩ split t).dataset_path ∧
    (get_dataset ⟨path, true, tb, ib, nw⟩ split t).split =
      (get_dataset ⟨path, false, tb, ib, nw⟩ split t).split ∧
    (get_dataset ⟨path, true, tb, ib, nw⟩ split t).patch_data =
      (get_dataset ⟨path, false, tb, ib, nw⟩ split t).patch_data ∧
    (get_dataset ⟨path, true, tb, ib, nw⟩ split t).use_rasters =
      (get_dataset ⟨path, false, tb, ib, nw⟩ split t).use_rasters ∧
    (get_dataset ⟨path, true, tb, ib, nw⟩ split t).patch_extractor =
      (get_dataset ⟨path, false, tb, ib, nw⟩ split t).patch_extractor ∧
    (get_dataset ⟨path, true, tb, ib, nw⟩ split t).transform =
      (get_dataset ⟨path, false, tb, ib, nw⟩ split t).transform :=
  ⟨rfl, rfl, rfl, rfl, rfl, rfl, rfl, rfl⟩

/-- C6: every `get_dataset` call builds the patch extractor rooted at
`dataset_path / "rasters"` with `size=20` and exactly the three
bioclimatic rasters `bio_1` (fill -12.0), `bio_2` (fill 1.0), `bio_7`
(fill 1.0), in that order, and hands the given transform pipeline to the
dataset constructor unchanged. -/
theorem get_dataset_patch_extractor_spec {T : Type}
    (m : GeoLifeCLEF2022DataModule) (split : String) (t : T) :
    (get_dataset m split t).patch_extractor =
      { root := m.dataset_path ++ "/rasters", size := 20,
        rasters := [("bio_1", -12), ("bio_2", 1), ("bio_7", 1)] } ∧
    (get_dataset m split t).transform = t :=
  ⟨rfl, rfl⟩

/-- C7: composing the value stage of the BIOTEMP transform with its exact
inverse `x * sigma + mu` is the identity on every channel of every
3-channel image (exactly over the rationals, hence within floating-point
tolerance). -/
theorem biotempNormalize_left_inverse (x : Img) (hc : x.c = 3) (k i j : ℕ)
    (hk : k < 3) :
    (biotempNormalize (bioDenormalize x)).px k i j = x.px k i j := by
  rcases k with _ | _ | _ | n
  · simp [biotempNormalize, bioDenormalize, bioMu, bioSigma, hc]
  · simp [biotempNormalize, bioDenormalize, bioMu, bioSigma, hc]
  · simp [biotempNormalize, bioDenormalize, bioMu, bioSigma, hc]
  · exact absurd hk (by omega)

/-- Witness for C7 at a concrete 3-channel image of constant value 7. -/
theorem biotempNormalize_left_inverse_witness :
    (constImg 3 2 2 7).c = 3 ∧ (0 : ℕ) < 3 ∧
      (biotempNormalize (bioDenormalize (constImg 3 2 2 7))).px 0 0 0 =
        (constImg 3 2 2 7).px 0 0 0 :=
  ⟨rfl, by decide,
    biotempNormalize_left_inverse (constImg 3 2 2 7) rfl 0 0 0 (by decide)⟩

/-- C8: both pipelines start with the BIOTEMP channel normalization and
end with one and the same `Normalize` stage, whose constants are mean
`(0.485, 0.456, 0.406)` and standard deviation `(0.229, 0.224, 0.225)`
and which maps every channel value `v` to `(v - mean[c]) / std[c]`. -/
theorem pipelines_share_final_normalize :
    trainSteps.head? = some biotempStep ∧
    testSteps.head? = some biotempStep ∧
    trainSteps.getLast? = some (normalizeStep imagenetMean imagenetStd) ∧
    testSteps.getLast? = some (normalizeStep imagenetMean imagenetStd) ∧
    imagenetMean = [485/1000, 456/1000, 406/1000] ∧
    imagenetStd = [229/1000, 224/1000, 225/1000] ∧
    (∀ r x k i j, (normalizeStep imagenetMean imagenetStd r x).px k i j =
      (x.px k i j - imagenetMean.getD k 0) / imagenetStd.getD k 1) :=
  ⟨rfl, rfl, rfl, rfl, rfl, rfl, fun _ _ _ _ _ => rfl⟩

/-- C9: whenever `ReplaceChannelsByBIOTEMPTransform.__call__` succeeds,
the returned tensor has dtype float32 whatever the input dtype was, and
the input array is left unchanged by the call. -/
theorem biotempCall_float32_dtype_and_frame (x : Img) (y : Img)
    (hy : biotempCall x = some y) :
    y.dtype = DType.float32 ∧ (biotempCallTrace x).2 = x := by
  refine ⟨?_, rfl⟩
  cases hb : broadcastOK x.c with
  | false => simp [biotempCall, hb] at hy
  | true =>
    simp only [biotempCall, hb, if_true, Option.some.injEq] at hy
    rw [← hy]
    rfl

/-- Witness for C9 at a concrete float64 input. -/
theorem biotempCall_float32_dtype_and_frame_witness :
    (constImg 3 2 2 5).dtype = DType.float64 ∧
      biotempCall (constImg 3 2 2 5) = some (biotempApply (constImg 3 2 2 5)) ∧
      ((biotempApply (constImg 3 2 2 5)).dtype = DType.float32 ∧
        (biotempCallTrace (constImg 3 2 2 5)).2 = constImg 3 2 2 5) :=
  ⟨rfl, rfl, biotempCall_float32_dtype_and_frame (constImg 3 2 2 5)
    (biotempApply (constImg 3 2 2 5)) rfl⟩

/-- C10: for every split, `get_dataset` constructs the dataset with
`patch_data=[]` and `use_rasters=True`, so the only patch source it
requests is the three-raster extractor. -/
theorem get_dataset_patchdata_empty_rasters_true {T : Type}
    (m : GeoLifeCLEF2022DataModule) (split : String) (t : T) :
    (get_dataset m split t).patch_data = [] ∧
    (get_dataset m split t).use_rasters = true :=
  ⟨rfl, rfl⟩
